import Mathlib

/-!
Verification development for the SkiMeister repository.

This file gives a shallow embedding of the core logic of the repository:
the cache store, the rate-limited retrying fetcher (`scrapers/base_scraper.py`),
the resort/forecast extractor (`scrapers/bergfex_scraper.py`), the weather
service (`scrapers/weather_service.py`), and the filter/search pipeline
(`app.py`).  Python strings are Lean `String`, Python floats are `ℚ`,
Python `None`/absence is `Option`, raised exceptions are `Except`/error
flags, and wall-clock time is a discrete `Nat` clock advanced by sleeps and
request durations.
-/

namespace SkiMeister

/-- Python exception kinds that the embedded code can raise. -/
inductive PyErr where
  | attrError
  | typeError
  | valueError
  | keyError
  | jsonDecode
  | indexError
  | nameError
deriving DecidableEq, Repr

/-! ## String and number helpers (regex fragments and coercions used by the source) -/

/-- Value of a maximal run of digits, continuing an accumulator; returns the
value and the rest of the characters. Models the tail of a `\d+` regex match. -/
def digitsVal (acc : Nat) : List Char → Nat × List Char
  | [] => (acc, [])
  | c :: cs => if c.isDigit then digitsVal (acc * 10 + (c.toNat - 48)) cs else (acc, c :: cs)

/-- First integer in a string: models `re.search(r"(\d+)", text)` returning
`int(match.group(1))`, or `none` when the text holds no digit. -/
def firstNat : List Char → Option Nat
  | [] => none
  | c :: cs => if c.isDigit then some (digitsVal (c.toNat - 48) cs).1 else firstNat cs

/-- First signed integer in a string: models `re.search(r"(-?\d+)", text)`. -/
def firstSignedInt : List Char → Option Int
  | [] => none
  | c :: cs =>
    if c.isDigit then some (Int.ofNat (digitsVal (c.toNat - 48) cs).1)
    else if c = '-' then
      match cs with
      | d :: ds => if d.isDigit then some (-(Int.ofNat (digitsVal (d.toNat - 48) ds).1))
                   else firstSignedInt cs
      | [] => none
    else firstSignedInt cs

/-- Substring test on character lists; models the Python `in` operator on `str`. -/
def containsSub (hay needle : List Char) : Bool :=
  (List.range (hay.length + 1)).any (fun i => needle.isPrefixOf (hay.drop i))

/-- Lowercased copy of a string, models `str.lower()` on ASCII text. -/
def lowerStr (s : String) : String := ⟨s.data.map Char.toLower⟩

/-- Lexicographic comparison of strings by code point, models Python `str` order
as used by `sort(key=lambda x: x["name"])`. -/
def strLtAux : List Char → List Char → Bool
  | [], [] => false
  | [], _ :: _ => true
  | _ :: _, [] => false
  | a :: as, b :: bs =>
    if a.val < b.val then true else if b.val < a.val then false else strLtAux as bs

/-- Non-strict string order used for the stable name sort. -/
def strLeB (a b : String) : Bool := strLtAux a.data b.data || a == b

/-- All characters are digits and the list is nonempty. -/
def allDigits : List Char → Bool
  | [] => false
  | l => l.all Char.isDigit

/-- Numeric value of a digit list (most significant first). -/
def digitsToNat (l : List Char) : Nat := l.foldl (fun acc c => acc * 10 + (c.toNat - 48)) 0

/-- Python `int(s)` on a decimal string: optional sign followed by digits,
`none` models the `ValueError` raised on any other input (for example `"abc"`
or `"60.5"`). -/
def pyInt (s : String) : Option Int :=
  match s.data with
  | '-' :: rest => if allDigits rest then some (-(Int.ofNat (digitsToNat rest))) else none
  | '+' :: rest => if allDigits rest then some (Int.ofNat (digitsToNat rest)) else none
  | l => if allDigits l then some (Int.ofNat (digitsToNat l)) else none

/-- Helper: parse `digits [. digits]` into a rational, requiring at least one
digit overall. -/
def decimalToRat (intPart fracPart : List Char) : Option ℚ :=
  if intPart.all Char.isDigit ∧ fracPart.all Char.isDigit ∧ (intPart ≠ [] ∨ fracPart ≠ []) then
    some (mkRat (Int.ofNat (digitsToNat (intPart ++ fracPart))) (10 ^ fracPart.length))
  else none

/-- Python `float(s)` on the decimal fragment: optional sign, digits, optional
dot and fraction digits. `none` models the `ValueError` on non-numeric text.
(Exponent and special forms such as `"inf"` are not used by the repository
and are modelled as errors.) -/
def pyFloat (s : String) : Option ℚ :=
  let core : List Char → Option ℚ := fun l =>
    match l.splitOn '.' with
    | [ip] => decimalToRat ip []
    | [ip, fp] => decimalToRat ip fp
    | _ => none
  match s.data with
  | '-' :: rest => (core rest).map (fun q => -q)
  | '+' :: rest => core rest
  | l => core l

/-- Python `int(x)` on a float: truncation toward zero. -/
def pyTrunc (q : ℚ) : Int := if q < 0 then -((-q).floor) else q.floor

/-- Python `round(x, 1)`: round to one decimal place, ties to even
(banker rounding), as used for the `distance_km` annotation. -/
def pyRound1 (x : ℚ) : ℚ :=
  let y := x * 10
  let f := y.floor
  let r : ℤ :=
    if mkRat 1 2 < y - f then f + 1
    else if y - f < mkRat 1 2 then f
    else if f % 2 = 0 then f else f + 1
  mkRat r 10

/-! ## Cache store (`BaseScraper._get_cached` / `_set_cached`)

A cache file either fails to parse (`malformed`, covering
`json.JSONDecodeError`, `KeyError` and `ValueError` in the source) or holds a
timestamp and the raw payload.  The store is an association list keyed by the
fetch key; `_get_cache_path` hashes the key deterministically, so one key
always maps to the same file and the hash is dropped from the model. -/

inductive CacheEntry where
  | malformed
  | entry (fetchedAt : Nat) (payload : String)
deriving DecidableEq, Repr

abbrev CacheStore := List (String × CacheEntry)

/-- Lookup of the cache file for a key (first binding wins, so a later
`setCached` shadows older ones). -/
def storeLookup : CacheStore → String → Option CacheEntry
  | [], _ => none
  | (k, e) :: rest, key => if k == key then some e else storeLookup rest key

/-- `BaseScraper._set_cached`: write `{timestamp: now, data: payload}`,
always overwriting. -/
def setCached (store : CacheStore) (key payload : String) (now : Nat) : CacheStore :=
  (key, CacheEntry.entry now payload) :: store

/-- `BaseScraper._get_cached`: absent file, malformed file, or an entry older
than `ttl` is a cache miss (`none`), never an error; a fresh entry returns its
payload. The source checks `utcnow - cached_time < expiry`. -/
def getCached (ttl : Nat) (store : CacheStore) (key : String) (now : Nat) : Option String :=
  match storeLookup store key with
  | none => none
  | some CacheEntry.malformed => none
  | some (CacheEntry.entry ts payload) => if now - ts < ttl then some payload else none

/-- Cache TTL from `config.CACHE_EXPIRY_HOURS` (time units of the model). -/
def CACHE_EXPIRY_HOURS : Nat := 24

/-! ## Claim C5: cache round trip -/

/-- C5: a `put` followed immediately by a `get` of the same key returns the
payload unchanged; once `ttl` has elapsed since the write the `get` returns
`none`; and a missing, malformed, or expired entry is always a plain cache
miss (`none`). -/
theorem c5_cache_roundtrip (store : CacheStore) (key payload : String)
    (now t ttl : Nat) (httl : 0 < ttl) :
    getCached ttl (setCached store key payload now) key now = some payload
    ∧ (now + ttl ≤ t → getCached ttl (setCached store key payload now) key t = none)
    ∧ (storeLookup store key = none → getCached ttl store key now = none)
    ∧ (storeLookup store key = some CacheEntry.malformed → getCached ttl store key now = none)
    ∧ (∀ ts p, storeLookup store key = some (CacheEntry.entry ts p) → ts + ttl ≤ now →
        getCached ttl store key now = none) := by
  refine ⟨?_, ?_, ?_, ?_, ?_⟩
  · simp [getCached, setCached, storeLookup, httl]
  · intro ht
    have : ¬ (t - now < ttl) := by omega
    simp [getCached, setCached, storeLookup, this]
  · intro h; simp [getCached, h]
  · intro h; simp [getCached, h]
  · intro ts p h hex
    have : ¬ (now - ts < ttl) := by omega
    simp [getCached, h, this]

/-- Witness for C5 at concrete inputs: key `"u"`, payload `"html"`, write at
time 5, TTL 24 (the configured `CACHE_EXPIRY_HOURS`), read back at 5 and at 29. -/
theorem c5_cache_roundtrip_witness :
    getCached CACHE_EXPIRY_HOURS (setCached [] "u" "html" 5) "u" 5 = some "html"
    ∧ getCached CACHE_EXPIRY_HOURS (setCached [] "u" "html" 5) "u" 29 = none
    ∧ getCached CACHE_EXPIRY_HOURS [] "u" 5 = none
    ∧ getCached CACHE_EXPIRY_HOURS [("u", CacheEntry.malformed)] "u" 5 = none := by
  have h := c5_cache_roundtrip [] "u" "html" 5 29 CACHE_EXPIRY_HOURS (by decide)
  refine ⟨h.1, h.2.1 (by decide), h.2.2.1 rfl, ?_⟩
  have h2 := c5_cache_roundtrip [("u", CacheEntry.malformed)] "u" "html" 5 29
    CACHE_EXPIRY_HOURS (by decide)
  exact h2.2.2.2.1 rfl

/-! ## Rate-limited fetcher (`BaseScraper.fetch_url`, `BaseScraper._rate_limit`)

Wall-clock time is a `Nat` clock.  A network request at attempt `i` advances
the clock by `dur i` (its duration); `time.sleep(d)` advances it by `d`.
`net i` is the outcome of the `i`-th network attempt of one call (`none`
models `requests.RequestException`). -/

/-- Seconds between requests, from `config.SCRAPER_RATE_LIMIT`. -/
def SCRAPER_RATE_LIMIT : Nat := 2

/-- Retry budget, from `config.SCRAPER_MAX_RETRIES`. -/
def SCRAPER_MAX_RETRIES : Nat := 3

/-- Mutable fetcher state: current wall-clock time and
`self.last_request_time`. -/
structure FetchState where
  clock : Nat
  lastRequestTime : Nat
deriving DecidableEq, Repr

/-- `BaseScraper._rate_limit`: if less than `rl` has elapsed since the last
recorded request, sleep the difference; then record the (new) current time. -/
def rateLimit (rl : Nat) (s : FetchState) : FetchState :=
  let elapsed := s.clock - s.lastRequestTime
  let c := if elapsed < rl then s.clock + (rl - elapsed) else s.clock
  { clock := c, lastRequestTime := c }

/-- Result of the retry loop: payload (or `none` after exhausting retries),
the start time of every network attempt, the backoff sleeps performed, the
final clock, and the (possibly updated) cache store. -/
structure LoopOut where
  result : Option String
  times : List Nat
  sleeps : List Nat
  clock : Nat
  store : CacheStore
deriving DecidableEq, Repr

/-- The `for attempt in range(max_retries)` loop of `fetch_url`: issue the
request (advancing the clock by its duration); on success write the cache
(when enabled) and return; on failure return `none` if this was the final
attempt, otherwise sleep `2 ** attempt` and retry.  `rem` counts the
remaining loop iterations and equals `maxR - attempt` at every call. -/
def attemptLoop (net : Nat → Option String) (dur : Nat → Nat) (useCache : Bool)
    (url : String) (maxR : Nat) : Nat → Nat → Nat → CacheStore → LoopOut
  | _, 0, clock, store => ⟨none, [], [], clock, store⟩
  | attempt, rem+1, clock, store =>
    match net attempt with
    | some payload =>
      ⟨some payload, [clock], [], clock + dur attempt,
        if useCache then setCached store url payload (clock + dur attempt) else store⟩
    | none =>
      if attempt = maxR - 1 then ⟨none, [clock], [], clock + dur attempt, store⟩
      else
        ⟨(attemptLoop net dur useCache url maxR (attempt+1) rem
            (clock + dur attempt + 2 ^ attempt) store).result,
         clock :: (attemptLoop net dur useCache url maxR (attempt+1) rem
            (clock + dur attempt + 2 ^ attempt) store).times,
         2 ^ attempt :: (attemptLoop net dur useCache url maxR (attempt+1) rem
            (clock + dur attempt + 2 ^ attempt) store).sleeps,
         (attemptLoop net dur useCache url maxR (attempt+1) rem
            (clock + dur attempt + 2 ^ attempt) store).clock,
         (attemptLoop net dur useCache url maxR (attempt+1) rem
            (clock + dur attempt + 2 ^ attempt) store).store⟩

/-- Outcome of one `fetch_url` call. -/
structure FetchOutcome where
  result : Option String
  attemptTimes : List Nat
  sleeps : List Nat
  state : FetchState
  store : CacheStore
deriving DecidableEq, Repr

/-- `BaseScraper.fetch_url`: consult the cache first (a hit requires a truthy,
hence nonempty, payload), otherwise rate limit once and run the retry loop.
`self.last_request_time` is recorded by `_rate_limit` before the loop and not
updated by retries. -/
def fetchUrl (rl ttl maxR : Nat) (net : Nat → Option String) (dur : Nat → Nat)
    (url : String) (useCache : Bool) (s : FetchState) (store : CacheStore) : FetchOutcome :=
  let hit : Option String :=
    if useCache then
      match getCached ttl store url s.clock with
      | some p => if p = "" then none else some p
      | none => none
    else none
  match hit with
  | some p => ⟨some p, [], [], s, store⟩
  | none =>
    let s1 := rateLimit rl s
    let o := attemptLoop net dur useCache url maxR 0 maxR s1.clock store
    ⟨o.result, o.times, o.sleeps, ⟨o.clock, s1.lastRequestTime⟩, o.store⟩

/-- One `fetch_url` call of a sequence: its per-attempt network outcomes and
request durations. -/
structure CallSpec where
  net : Nat → Option String
  dur : Nat → Nat

/-- Run a sequence of `fetch_url` calls on one scraper instance, threading the
process-wide state; returns the attempt times of each call. -/
def runCalls (rl ttl maxR : Nat) (url : String) (useCache : Bool) :
    List CallSpec → FetchState → CacheStore → List (List Nat) × FetchState
  | [], s, _ => ([], s)
  | c :: cs, s, store =>
    let o := fetchUrl rl ttl maxR c.net c.dur url useCache s store
    let r := runCalls rl ttl maxR url useCache cs o.state o.store
    (o.attemptTimes :: r.1, r.2)

/-- First attempt time of each call. -/
def firstAttemptTimes (l : List (List Nat)) : List Nat := l.map (fun ts => ts.headD 0)

/-- Every pair of consecutive times is at least `d` apart. -/
def gapsOk (d : Nat) : List Nat → Bool
  | a :: b :: l => decide (a + d ≤ b) && gapsOk d (b :: l)
  | _ => true

/-- Unfolding of `fetchUrl` with caching disabled: the cache is skipped, the
rate limiter runs once, then the retry loop. -/
theorem fetchUrl_nocache_eq (rl ttl maxR : Nat) (net : Nat → Option String)
    (dur : Nat → Nat) (url : String) (s : FetchState) (store : CacheStore) :
    fetchUrl rl ttl maxR net dur url false s store =
      ⟨(attemptLoop net dur false url maxR 0 maxR (rateLimit rl s).clock store).result,
       (attemptLoop net dur false url maxR 0 maxR (rateLimit rl s).clock store).times,
       (attemptLoop net dur false url maxR 0 maxR (rateLimit rl s).clock store).sleeps,
       ⟨(attemptLoop net dur false url maxR 0 maxR (rateLimit rl s).clock store).clock,
        (rateLimit rl s).lastRequestTime⟩,
       (attemptLoop net dur false url maxR 0 maxR (rateLimit rl s).clock store).store⟩ := rfl

/-! Helper lemmas about the retry loop. -/

theorem attemptLoop_times_length_le (net : Nat → Option String) (dur : Nat → Nat)
    (uc : Bool) (url : String) (maxR : Nat) :
    ∀ rem attempt clock store,
      (attemptLoop net dur uc url maxR attempt rem clock store).times.length ≤ rem := by
  intro rem
  induction rem with
  | zero => intro attempt clock store; simp [attemptLoop]
  | succ r ih =>
    intro attempt clock store
    simp only [attemptLoop]
    cases h : net attempt with
    | some p => simp
    | none =>
      by_cases hl : attempt = maxR - 1
      · simp [hl]
      · simp only [hl, if_false]
        have := ih (attempt+1) (clock + dur attempt + 2 ^ attempt) store
        simpa using Nat.succ_le_succ this

theorem attemptLoop_all_fail (net : Nat → Option String) (dur : Nat → Nat)
    (uc : Bool) (url : String) (maxR : Nat) (hnet : ∀ i, i < maxR → net i = none) :
    ∀ rem attempt clock store, attempt + rem = maxR →
      (attemptLoop net dur uc url maxR attempt rem clock store).result = none
      ∧ (attemptLoop net dur uc url maxR attempt rem clock store).times.length = rem
      ∧ (attemptLoop net dur uc url maxR attempt rem clock store).sleeps
          = (List.range' attempt (rem - 1)).map (fun i => 2 ^ i) := by
  intro rem
  induction rem with
  | zero => intro attempt clock store _; simp [attemptLoop]
  | succ r ih =>
    intro attempt clock store hsum
    have hlt : attempt < maxR := by omega
    have hna := hnet attempt hlt
    simp only [attemptLoop, hna]
    by_cases hl : attempt = maxR - 1
    · have hr0 : r = 0 := by omega
      subst hr0
      simp [hl]
    · have hr1 : 1 ≤ r := by omega
      simp only [hl, if_false]
      obtain ⟨ha, hb, hc⟩ := ih (attempt+1) (clock + dur attempt + 2 ^ attempt) store (by omega)
      refine ⟨ha, by simpa using hb, ?_⟩
      have : (r + 1 : Nat) - 1 = (r - 1) + 1 := by omega
      rw [this, List.range'_succ]
      simp [hc]

theorem attemptLoop_fail_then_succeed (net : Nat → Option String) (dur : Nat → Nat)
    (uc : Bool) (url : String) (maxR : Nat) (p : String)
    (hfail : ∀ i, i < maxR - 1 → net i = none) (hsucc : net (maxR - 1) = some p) :
    ∀ rem attempt clock store, attempt + rem = maxR → 1 ≤ rem →
      (attemptLoop net dur uc url maxR attempt rem clock store).result = some p
      ∧ (attemptLoop net dur uc url maxR attempt rem clock store).times.length = rem := by
  intro rem
  induction rem with
  | zero => intro attempt clock store _ h1; omega
  | succ r ih =>
    intro attempt clock store hsum _
    by_cases hl : attempt = maxR - 1
    · have hr0 : r = 0 := by omega
      subst hr0
      rw [hl] at hsum ⊢
      simp [attemptLoop, hsucc]
    · have hna := hfail attempt (by omega)
      simp only [attemptLoop, hna, hl, if_false]
      obtain ⟨ha, hb⟩ := ih (attempt+1) (clock + dur attempt + 2 ^ attempt) store (by omega) (by omega)
      exact ⟨ha, by simpa using hb⟩

theorem attemptLoop_clock_le (net : Nat → Option String) (dur : Nat → Nat)
    (uc : Bool) (url : String) (maxR : Nat) :
    ∀ rem attempt clock store,
      clock ≤ (attemptLoop net dur uc url maxR attempt rem clock store).clock := by
  intro rem
  induction rem with
  | zero => intro attempt clock store; exact Nat.le_refl _
  | succ r ih =>
    intro attempt clock store
    cases h : net attempt with
    | some p =>
      simp only [attemptLoop, h]
      omega
    | none =>
      by_cases hl : attempt = maxR - 1
      · simp only [attemptLoop, h]
        rw [if_pos hl]
        show clock ≤ clock + dur attempt
        omega
      · simp only [attemptLoop, h]
        rw [if_neg hl]
        show clock ≤ (attemptLoop net dur uc url maxR (attempt+1) r
          (clock + dur attempt + 2 ^ attempt) store).clock
        have := ih (attempt+1) (clock + dur attempt + 2 ^ attempt) store
        have h2 : 0 < 2 ^ attempt := Nat.two_pow_pos attempt
        omega

theorem attemptLoop_head (net : Nat → Option String) (dur : Nat → Nat)
    (uc : Bool) (url : String) (maxR rem : Nat) (hrem : 1 ≤ rem) (attempt clock : Nat)
    (store : CacheStore) :
    (attemptLoop net dur uc url maxR attempt rem clock store).times.headD 0 = clock
    ∧ (attemptLoop net dur uc url maxR attempt rem clock store).times ≠ [] := by
  obtain ⟨r, rfl⟩ : ∃ r, rem = r + 1 := ⟨rem - 1, by omega⟩
  simp only [attemptLoop]
  cases h : net attempt with
  | some p => simp
  | none =>
    by_cases hl : attempt = maxR - 1
    · simp [hl]
    · simp [hl]

theorem rateLimit_last_eq (rl : Nat) (s : FetchState) :
    (rateLimit rl s).lastRequestTime = (rateLimit rl s).clock := rfl

theorem rateLimit_clock_ge (rl : Nat) (s : FetchState) (h : s.lastRequestTime ≤ s.clock) :
    s.lastRequestTime + rl ≤ (rateLimit rl s).clock ∧ s.clock ≤ (rateLimit rl s).clock := by
  simp only [rateLimit]
  by_cases hc : s.clock - s.lastRequestTime < rl
  · simp only [hc, if_true]
    omega
  · simp only [hc, if_false]
    omega

/-! ## Claim C2: retry/backoff behaviour of `fetch_url` with caching disabled -/

/-- C2: with caching disabled, `fetch_url` makes at most `max_retries` network
attempts; a fetch failing `max_retries - 1` times then succeeding returns the
payload (after exactly `max_retries` attempts); a fetch failing every time
returns `none` after exactly `max_retries` attempts, sleeping `2 ^ attempt`
after each non-final failed attempt. -/
theorem c2_retry_backoff (rl ttl maxR : Nat) (net : Nat → Option String) (dur : Nat → Nat)
    (url : String) (s : FetchState) (store : CacheStore) (hmax : 1 ≤ maxR) :
    (fetchUrl rl ttl maxR net dur url false s store).attemptTimes.length ≤ maxR
    ∧ (∀ p, (∀ i, i < maxR - 1 → net i = none) → net (maxR - 1) = some p →
        (fetchUrl rl ttl maxR net dur url false s store).result = some p
        ∧ (fetchUrl rl ttl maxR net dur url false s store).attemptTimes.length = maxR)
    ∧ ((∀ i, i < maxR → net i = none) →
        (fetchUrl rl ttl maxR net dur url false s store).result = none
        ∧ (fetchUrl rl ttl maxR net dur url false s store).attemptTimes.length = maxR
        ∧ (fetchUrl rl ttl maxR net dur url false s store).sleeps
            = (List.range (maxR - 1)).map (fun i => 2 ^ i)) := by
  rw [fetchUrl_nocache_eq]
  refine ⟨attemptLoop_times_length_le net dur false url maxR maxR 0 _ store, ?_, ?_⟩
  · intro p hfail hsucc
    exact attemptLoop_fail_then_succeed net dur false url maxR p hfail hsucc maxR 0 _ store
      (by omega) hmax
  · intro hnet
    obtain ⟨ha, hb, hc⟩ := attemptLoop_all_fail net dur false url maxR hnet maxR 0 _ store
      (by omega)
    refine ⟨ha, hb, ?_⟩
    show (attemptLoop net dur false url maxR 0 maxR (rateLimit rl s).clock store).sleeps = _
    rw [hc, List.range_eq_range']

/-- Witness for C2 at the configured `SCRAPER_MAX_RETRIES = 3`: a network that
always fails, and one that fails twice then serves `"ok"`. -/
theorem c2_retry_backoff_witness :
    (fetchUrl SCRAPER_RATE_LIMIT CACHE_EXPIRY_HOURS SCRAPER_MAX_RETRIES
        (fun i => if i < 2 then none else some "ok") (fun _ => 0) "u" false ⟨100, 0⟩ []).result
      = some "ok"
    ∧ (fetchUrl SCRAPER_RATE_LIMIT CACHE_EXPIRY_HOURS SCRAPER_MAX_RETRIES
        (fun _ => none) (fun _ => 0) "u" false ⟨100, 0⟩ []).result = none
    ∧ (fetchUrl SCRAPER_RATE_LIMIT CACHE_EXPIRY_HOURS SCRAPER_MAX_RETRIES
        (fun _ => none) (fun _ => 0) "u" false ⟨100, 0⟩ []).attemptTimes.length
      = SCRAPER_MAX_RETRIES
    ∧ (fetchUrl SCRAPER_RATE_LIMIT CACHE_EXPIRY_HOURS SCRAPER_MAX_RETRIES
        (fun _ => none) (fun _ => 0) "u" false ⟨100, 0⟩ []).sleeps = [1, 2] := by
  have h1 := c2_retry_backoff SCRAPER_RATE_LIMIT CACHE_EXPIRY_HOURS SCRAPER_MAX_RETRIES
    (fun i => if i < 2 then none else some "ok") (fun _ => 0) "u" ⟨100, 0⟩ [] (by decide)
  have h2 := c2_retry_backoff SCRAPER_RATE_LIMIT CACHE_EXPIRY_HOURS SCRAPER_MAX_RETRIES
    (fun _ => none) (fun _ => 0) "u" ⟨100, 0⟩ [] (by decide)
  have ha := h1.2.1 "ok" (by intro i hi; simp [SCRAPER_MAX_RETRIES] at hi; simp [hi]) (by rfl)
  have hb := h2.2.2 (by intro i _; rfl)
  exact ⟨ha.1, hb.1, hb.2.1, by rw [hb.2.2]; rfl⟩

/-! ## Claim C6: rate limiter spacing of network attempts -/

/-- C6 counterexample: one `fetch_url` call with caching disabled whose three
attempts all fail (instant requests) produces attempts at times 100, 101 and
103 — the backoff sleep `2 ^ 0 = 1` between the first two retries is below
`SCRAPER_RATE_LIMIT = 2`, so consecutive network attempts are NOT always at
least `min_interval` apart. -/
theorem c6_rate_limit_counterexample :
    gapsOk SCRAPER_RATE_LIMIT
      ((runCalls SCRAPER_RATE_LIMIT CACHE_EXPIRY_HOURS SCRAPER_MAX_RETRIES "u" false
        [⟨fun _ => none, fun _ => 0⟩] ⟨100, 0⟩ []).1.flatten) = false := by
  rfl

/-- C6 amended: the rate limiter separates the FIRST network attempts of
consecutive `fetch_url` calls by at least `min_interval` (each is also at
least `min_interval` after the previously recorded request time); retry
attempts inside one call are spaced only by the exponential backoff. -/
theorem c6_rate_limit_first_attempts (rl ttl maxR : Nat) (url : String)
    (specs : List CallSpec) (s : FetchState) (store : CacheStore)
    (hmax : 1 ≤ maxR) (hls : s.lastRequestTime ≤ s.clock) :
    gapsOk rl (s.lastRequestTime ::
      firstAttemptTimes (runCalls rl ttl maxR url false specs s store).1) = true := by
  induction specs generalizing s store with
  | nil => rfl
  | cons c cs ih =>
    have hrl := rateLimit_clock_ge rl s hls
    have hhead := attemptLoop_head c.net c.dur false url maxR maxR hmax 0
      (rateLimit rl s).clock store
    have hclk := attemptLoop_clock_le c.net c.dur false url maxR maxR 0
      (rateLimit rl s).clock store
    simp only [runCalls, fetchUrl_nocache_eq, firstAttemptTimes, List.map_cons]
    simp only [gapsOk, Bool.and_eq_true, decide_eq_true_eq]
    constructor
    · show s.lastRequestTime + rl ≤
        (attemptLoop c.net c.dur false url maxR 0 maxR (rateLimit rl s).clock store).times.headD 0
      rw [hhead.1]; exact hrl.1
    · have hls2 : ((⟨(attemptLoop c.net c.dur false url maxR 0 maxR
            (rateLimit rl s).clock store).clock,
          (rateLimit rl s).lastRequestTime⟩ : FetchState)).lastRequestTime
          ≤ ((⟨(attemptLoop c.net c.dur false url maxR 0 maxR
            (rateLimit rl s).clock store).clock,
          (rateLimit rl s).lastRequestTime⟩ : FetchState)).clock := by
        show (rateLimit rl s).lastRequestTime ≤ _
        rw [rateLimit_last_eq]; exact hclk
      have hih := ih ⟨(attemptLoop c.net c.dur false url maxR 0 maxR
          (rateLimit rl s).clock store).clock, (rateLimit rl s).lastRequestTime⟩
        (attemptLoop c.net c.dur false url maxR 0 maxR (rateLimit rl s).clock store).store hls2
    -- the recorded time equals the first attempt time of this call
      have heq : (rateLimit rl s).lastRequestTime
          = (attemptLoop c.net c.dur false url maxR 0 maxR
              (rateLimit rl s).clock store).times.headD 0 := by
        rw [hhead.1, rateLimit_last_eq]
      rw [firstAttemptTimes] at hih
      simpa [heq] using hih

/-- Witness for C6 amended: two consecutive calls (a fully failing one, then a
succeeding one) at the configured constants. -/
theorem c6_rate_limit_first_attempts_witness :
    gapsOk SCRAPER_RATE_LIMIT ((⟨100, 0⟩ : FetchState).lastRequestTime ::
      firstAttemptTimes (runCalls SCRAPER_RATE_LIMIT CACHE_EXPIRY_HOURS SCRAPER_MAX_RETRIES
        "u" false [⟨fun _ => none, fun _ => 0⟩, ⟨fun _ => some "x", fun _ => 0⟩]
        ⟨100, 0⟩ []).1) = true :=
  c6_rate_limit_first_attempts SCRAPER_RATE_LIMIT CACHE_EXPIRY_HOURS SCRAPER_MAX_RETRIES "u"
    [⟨fun _ => none, fun _ => 0⟩, ⟨fun _ => some "x", fun _ => 0⟩] ⟨100, 0⟩ []
    (by decide) (by decide)

/-! ## Claim C10: an empty cached payload is treated as a cache miss -/

/-- C10: a fresh cache entry whose payload is the empty string does not serve
the `fetch_url` cache hit — the truthiness test `if cached:` rejects it, so a
network request is issued (after rate limiting); by contrast a fresh nonempty
payload is returned immediately with no network attempt. -/
theorem c10_empty_cache_miss (rl ttl maxR : Nat) (net : Nat → Option String)
    (dur : Nat → Nat) (url : String) (s : FetchState) (rest : CacheStore) (ts : Nat)
    (hmax : 1 ≤ maxR) (hfresh : s.clock - ts < ttl) :
    (fetchUrl rl ttl maxR net dur url true s ((url, CacheEntry.entry ts "") :: rest)).attemptTimes
      ≠ []
    ∧ (fetchUrl rl ttl maxR net dur url true s
        ((url, CacheEntry.entry ts "") :: rest)).attemptTimes.headD 0 = (rateLimit rl s).clock
    ∧ (∀ p, p ≠ "" →
        (fetchUrl rl ttl maxR net dur url true s ((url, CacheEntry.entry ts p) :: rest)).result
          = some p
        ∧ (fetchUrl rl ttl maxR net dur url true s
            ((url, CacheEntry.entry ts p) :: rest)).attemptTimes = []) := by
  have hget : getCached ttl ((url, CacheEntry.entry ts "") :: rest) url s.clock = some "" := by
    simp [getCached, storeLookup, hfresh]
  have hhead := attemptLoop_head net dur true url maxR maxR hmax 0 (rateLimit rl s).clock
    ((url, CacheEntry.entry ts "") :: rest)
  refine ⟨?_, ?_, ?_⟩
  · simp only [fetchUrl, hget]
    simpa using hhead.2
  · simp only [fetchUrl, hget]
    simpa using hhead.1
  · intro p hp
    have hgetp : getCached ttl ((url, CacheEntry.entry ts p) :: rest) url s.clock = some p := by
      simp [getCached, storeLookup, hfresh]
    simp [fetchUrl, hgetp, hp]

/-- Witness for C10: entry written at time 90 and read at time 100 with the
configured TTL; the empty payload forces a network attempt, payload `"x"`
is served from cache. -/
theorem c10_empty_cache_miss_witness :
    (fetchUrl SCRAPER_RATE_LIMIT CACHE_EXPIRY_HOURS SCRAPER_MAX_RETRIES (fun _ => some "fresh")
        (fun _ => 0) "u" true ⟨100, 0⟩ [("u", CacheEntry.entry 90 "")]).attemptTimes ≠ []
    ∧ (fetchUrl SCRAPER_RATE_LIMIT CACHE_EXPIRY_HOURS SCRAPER_MAX_RETRIES (fun _ => some "fresh")
        (fun _ => 0) "u" true ⟨100, 0⟩ [("u", CacheEntry.entry 90 "x")]).result = some "x" := by
  have h := c10_empty_cache_miss SCRAPER_RATE_LIMIT CACHE_EXPIRY_HOURS SCRAPER_MAX_RETRIES
    (fun _ => some "fresh") (fun _ => 0) "u" ⟨100, 0⟩ [] 90 (by decide) (by decide)
  exact ⟨h.1, (h.2.2 "x" (by decide)).1⟩

/-! ## Stable sort

Python `list.sort(key=...)` is a stable sort; for a total preorder the stable
sort is unique as a function, so it is modelled by stable insertion sort. -/

/-- Insert `a` into `l`, before the first element that is not `≤ a`; equal
elements keep the earlier-inserted one later, giving stability. -/
def insertLe (le : α → α → Bool) (a : α) : List α → List α
  | [] => [a]
  | b :: l => if le a b then a :: b :: l else b :: insertLe le a l

/-- Stable insertion sort with a boolean `≤`. -/
def stableSort (le : α → α → Bool) : List α → List α
  | [] => []
  | x :: xs => insertLe le x (stableSort le xs)

theorem mem_insertLe (le : α → α → Bool) (a x : α) :
    ∀ l, x ∈ insertLe le a l ↔ x = a ∨ x ∈ l := by
  intro l
  induction l with
  | nil => simp [insertLe]
  | cons b bs ih =>
    simp only [insertLe]
    by_cases h : le a b = true
    · rw [if_pos h]
      simp
    · rw [if_neg h]
      simp only [List.mem_cons, ih]
      tauto

theorem mem_stableSort (le : α → α → Bool) (x : α) :
    ∀ l, x ∈ stableSort le l ↔ x ∈ l := by
  intro l
  induction l with
  | nil => simp [stableSort]
  | cons b bs ih => simp [stableSort, mem_insertLe, ih]

theorem pairwise_insertLe (le : α → α → Bool)
    (htrans : ∀ a b c, le a b = true → le b c = true → le a c = true)
    (htot : ∀ a b, le a b = true ∨ le b a = true) (a : α) :
    ∀ l, List.Pairwise (fun p q => le p q = true) l →
      List.Pairwise (fun p q => le p q = true) (insertLe le a l) := by
  intro l
  induction l with
  | nil => intro _; simp [insertLe]
  | cons b bs ih =>
    intro hp
    have hp1 := (List.pairwise_cons.mp hp).1
    have hp2 := (List.pairwise_cons.mp hp).2
    simp only [insertLe]
    by_cases h : le a b = true
    · rw [if_pos h, List.pairwise_cons]
      refine ⟨?_, hp⟩
      intro x hx
      rcases List.mem_cons.mp hx with rfl | hx
      · exact h
      · exact htrans a b x h (hp1 x hx)
    · rw [if_neg h, List.pairwise_cons]
      refine ⟨?_, ih hp2⟩
      intro x hx
      rcases (mem_insertLe le a x bs).mp hx with heq | hx
      · rw [heq]
        rcases htot a b with hab | hba
        · exact absurd hab h
        · exact hba
      · exact hp1 x hx

theorem pairwise_stableSort (le : α → α → Bool)
    (htrans : ∀ a b c, le a b = true → le b c = true → le a c = true)
    (htot : ∀ a b, le a b = true ∨ le b a = true) :
    ∀ l, List.Pairwise (fun p q => le p q = true) (stableSort le l) := by
  intro l
  induction l with
  | nil => simp [stableSort]
  | cons b bs ih => exact pairwise_insertLe le htrans htot b _ ih

/-! ## Data rows and filter pipeline (`app.py: apply_filters`)

A `ResortRow` mirrors the `Resort` aggregate with its optional 1:1
`Conditions` and `Pricing` rows.  `query.join(Conditions).filter(pred)` is an
inner join over the 1:1 relationship: a resort survives iff it has a
conditions row on which `pred` holds, where a SQL comparison against NULL is
false.  Joining the same table again reuses the single related row. -/

structure CondRow where
  snow_depth_mountain : Option Int
  status : Option String
  slopes_open_km : Option ℚ
deriving DecidableEq, Repr

structure PriceRow where
  adult_day_pass : Option ℚ
deriving DecidableEq, Repr

structure ResortRow where
  name : String
  country : String
  latitude : ℚ
  longitude : ℚ
  conditions : Option CondRow
  pricing : Option PriceRow
deriving DecidableEq, Repr

/-- Raw string-valued filter parameters, `none` when the query key is absent.
The source guards each filter with `'key' in filters and filters['key']`. -/
structure Filters where
  min_snow : Option String := none
  status : Option String := none
  min_slopes : Option String := none
  max_price : Option String := none
  country : Option String := none
deriving DecidableEq, Repr

/-- Present and truthy (a nonempty string), the guard used by `apply_filters`. -/
def present : Option String → Bool
  | some s => decide (s ≠ "")
  | none => false

/-- Inner join `Resort → Conditions` followed by a WHERE predicate. -/
def condHolds (p : CondRow → Bool) (r : ResortRow) : Bool :=
  match r.conditions with
  | some c => p c
  | none => false

/-- Inner join `Resort → Pricing` followed by a WHERE predicate. -/
def priceHolds (p : PriceRow → Bool) (r : ResortRow) : Bool :=
  match r.pricing with
  | some pr => p pr
  | none => false

/-- `Conditions.snow_depth_mountain >= int(v)` (false on NULL). -/
def snowPred (v : Int) (c : CondRow) : Bool :=
  match c.snow_depth_mountain with
  | some d => decide (v ≤ d)
  | none => false

/-- `Conditions.status == v` (false on NULL). -/
def statusPred (v : String) (c : CondRow) : Bool := c.status == some v

/-- `Conditions.slopes_open_km >= float(v)` (false on NULL). -/
def slopesPred (v : ℚ) (c : CondRow) : Bool :=
  match c.slopes_open_km with
  | some d => decide (v ≤ d)
  | none => false

/-- `Pricing.adult_day_pass <= float(v)` (false on NULL). -/
def pricePred (v : ℚ) (p : PriceRow) : Bool :=
  match p.adult_day_pass with
  | some d => decide (d ≤ v)
  | none => false

/-- First filter of `apply_filters`: minimum mountain snow depth; `int(...)`
raises `ValueError` on a non-numeric value. -/
def filterMinSnow (f : Filters) (q : List ResortRow) : Except PyErr (List ResortRow) :=
  match f.min_snow with
  | none => .ok q
  | some s =>
    if s = "" then .ok q
    else
      match pyInt s with
      | some v => .ok (q.filter (condHolds (snowPred v)))
      | none => .error .valueError

/-- Second filter: status equality (no coercion, no error). -/
def filterStatus (f : Filters) (q : List ResortRow) : Except PyErr (List ResortRow) :=
  match f.status with
  | none => .ok q
  | some s => if s = "" then .ok q else .ok (q.filter (condHolds (statusPred s)))

/-- Third filter: minimum open slopes; `float(...)` may raise `ValueError`. -/
def filterMinSlopes (f : Filters) (q : List ResortRow) : Except PyErr (List ResortRow) :=
  match f.min_slopes with
  | none => .ok q
  | some s =>
    if s = "" then .ok q
    else
      match pyFloat s with
      | some v => .ok (q.filter (condHolds (slopesPred v)))
      | none => .error .valueError

/-- Fourth filter: maximum ticket price; `float(...)` may raise `ValueError`. -/
def filterMaxPrice (f : Filters) (q : List ResortRow) : Except PyErr (List ResortRow) :=
  match f.max_price with
  | none => .ok q
  | some s =>
    if s = "" then .ok q
    else
      match pyFloat s with
      | some v => .ok (q.filter (priceHolds (pricePred v)))
      | none => .error .valueError

/-- Fifth filter: country equality on the resort row itself. -/
def filterCountry (f : Filters) (q : List ResortRow) : Except PyErr (List ResortRow) :=
  match f.country with
  | none => .ok q
  | some s => if s = "" then .ok q else .ok (q.filter (fun r => r.country == s))

/-- `apply_filters`: the five optional filters applied in source order. -/
def applyFilters (f : Filters) (q : List ResortRow) : Except PyErr (List ResortRow) :=
  ((((filterMinSnow f q).bind (filterStatus f)).bind (filterMinSlopes f)).bind
    (filterMaxPrice f)).bind (filterCountry f)

/-- Every present numeric filter value parses (so `apply_filters` raises
nothing). -/
def parsesOk (f : Filters) : Bool :=
  (!present f.min_snow || (pyInt (f.min_snow.getD "")).isSome)
  && (!present f.min_slopes || (pyFloat (f.min_slopes.getD "")).isSome)
  && (!present f.max_price || (pyFloat (f.max_price.getD "")).isSome)

/-- The claim-side conjunction: a resort satisfies every predicate whose
filter value is present; an absent (or empty) filter imposes no constraint. -/
def satisfiesAll (f : Filters) (r : ResortRow) : Bool :=
  (!present f.min_snow || condHolds (snowPred ((pyInt (f.min_snow.getD "")).getD 0)) r)
  && ((!present f.status || condHolds (statusPred (f.status.getD "")) r)
  && ((!present f.min_slopes || condHolds (slopesPred ((pyFloat (f.min_slopes.getD "")).getD 0)) r)
  && ((!present f.max_price || priceHolds (pricePred ((pyFloat (f.max_price.getD "")).getD 0)) r)
  && (!present f.country || r.country == f.country.getD ""))))

theorem filterMinSnow_eq (f : Filters) (q : List ResortRow)
    (h : (!present f.min_snow || (pyInt (f.min_snow.getD "")).isSome) = true) :
    filterMinSnow f q = .ok (q.filter (fun r =>
      !present f.min_snow || condHolds (snowPred ((pyInt (f.min_snow.getD "")).getD 0)) r)) := by
  cases hf : f.min_snow with
  | none => simp [filterMinSnow, hf, present, List.filter_true]
  | some s =>
    by_cases hs : s = ""
    · subst hs
      simp [filterMinSnow, hf, present, List.filter_true]
    · rw [hf] at h
      simp [present, hs] at h
      obtain ⟨v, hv⟩ := Option.isSome_iff_exists.mp h
      simp [filterMinSnow, hf, hs, hv, present]

theorem filterStatus_eq (f : Filters) (q : List ResortRow) :
    filterStatus f q = .ok (q.filter (fun r =>
      !present f.status || condHolds (statusPred (f.status.getD "")) r)) := by
  cases hf : f.status with
  | none => simp [filterStatus, hf, present, List.filter_true]
  | some s =>
    by_cases hs : s = ""
    · subst hs
      simp [filterStatus, hf, present, List.filter_true]
    · simp [filterStatus, hf, hs, present]

theorem filterMinSlopes_eq (f : Filters) (q : List ResortRow)
    (h : (!present f.min_slopes || (pyFloat (f.min_slopes.getD "")).isSome) = true) :
    filterMinSlopes f q = .ok (q.filter (fun r =>
      !present f.min_slopes
        || condHolds (slopesPred ((pyFloat (f.min_slopes.getD "")).getD 0)) r)) := by
  cases hf : f.min_slopes with
  | none => simp [filterMinSlopes, hf, present, List.filter_true]
  | some s =>
    by_cases hs : s = ""
    · subst hs
      simp [filterMinSlopes, hf, present, List.filter_true]
    · rw [hf] at h
      simp [present, hs] at h
      obtain ⟨v, hv⟩ := Option.isSome_iff_exists.mp h
      simp [filterMinSlopes, hf, hs, hv, present]

theorem filterMaxPrice_eq (f : Filters) (q : List ResortRow)
    (h : (!present f.max_price || (pyFloat (f.max_price.getD "")).isSome) = true) :
    filterMaxPrice f q = .ok (q.filter (fun r =>
      !present f.max_price
        || priceHolds (pricePred ((pyFloat (f.max_price.getD "")).getD 0)) r)) := by
  cases hf : f.max_price with
  | none => simp [filterMaxPrice, hf, present, List.filter_true]
  | some s =>
    by_cases hs : s = ""
    · subst hs
      simp [filterMaxPrice, hf, present, List.filter_true]
    · rw [hf] at h
      simp [present, hs] at h
      obtain ⟨v, hv⟩ := Option.isSome_iff_exists.mp h
      simp [filterMaxPrice, hf, hs, hv, present]

theorem filterCountry_eq (f : Filters) (q : List ResortRow) :
    filterCountry f q = .ok (q.filter (fun r =>
      !present f.country || r.country == f.country.getD "")) := by
  cases hf : f.country with
  | none => simp [filterCountry, hf, present, List.filter_true]
  | some s =>
    by_cases hs : s = ""
    · subst hs
      simp [filterCountry, hf, present, List.filter_true]
    · simp [filterCountry, hf, hs, present]

/-- With parseable values, the sequential filter pipeline equals one filter by
the conjunction of the individual predicates. -/
theorem applyFilters_eq (f : Filters) (q : List ResortRow) (h : parsesOk f = true) :
    applyFilters f q = .ok (q.filter (satisfiesAll f)) := by
  simp only [parsesOk, Bool.and_eq_true] at h
  rw [applyFilters, filterMinSnow_eq f q h.1.1]
  simp only [Except.bind]
  rw [filterStatus_eq f]
  simp only [Except.bind]
  rw [filterMinSlopes_eq f _ h.1.2]
  simp only [Except.bind]
  rw [filterMaxPrice_eq f _ h.2]
  simp only [Except.bind]
  rw [filterCountry_eq f]
  simp only [List.filter_filter]
  refine congrArg Except.ok (List.filter_congr ?_)
  intro r _
  simp only [satisfiesAll]
  ac_rfl

/-! ## Claim C1: filter conjunction -/

/-- Example dataset of the claim: `{snow: 50, price: 80}`. -/
def exResortA : ResortRow :=
  { name := "A", country := "CH", latitude := 0, longitude := 0,
    conditions := some { snow_depth_mountain := some 50, status := none, slopes_open_km := none },
    pricing := some { adult_day_pass := some 80 } }

/-- Example dataset of the claim: `{snow: 100, price: 60}`. -/
def exResortB : ResortRow :=
  { name := "B", country := "CH", latitude := 0, longitude := 0,
    conditions := some { snow_depth_mountain := some 100, status := none, slopes_open_km := none },
    pricing := some { adult_day_pass := some 60 } }

/-- C1: `apply_filters` behaves as an unordered conjunction — a resort survives
iff it satisfies every predicate whose filter value is present, and absent
filters impose no constraint; in particular, filtering the dataset
`[{snow: 50, price: 80}, {snow: 100, price: 60}]` with `min_snow=60` and
`max_price=70` yields exactly the second resort. -/
theorem c1_filter_conjunction :
    (∀ (f : Filters) (q : List ResortRow), parsesOk f = true →
      applyFilters f q = .ok (q.filter (satisfiesAll f)))
    ∧ applyFilters { min_snow := some "60", max_price := some "70" } [exResortA, exResortB]
        = .ok [exResortB] := by
  constructor
  · intro f q h
    exact applyFilters_eq f q h
  · rfl

/-- Witness for C1: the general conjunction statement applied at the concrete
example filters and dataset. -/
theorem c1_filter_conjunction_witness :
    parsesOk { min_snow := some "60", max_price := some "70" } = true
    ∧ applyFilters { min_snow := some "60", max_price := some "70" } [exResortA, exResortB]
        = .ok ([exResortA, exResortB].filter
            (satisfiesAll { min_snow := some "60", max_price := some "70" })) :=
  ⟨by decide, c1_filter_conjunction.1 _ _ (by decide)⟩

/-! ## Search engine (`app.py: search_resorts`)

The geodesic distance computation is delegated to an external library
(`geopy.distance.geodesic`), so it enters the model as an oracle parameter
`dist`.  A result item is `resort.to_dict()` plus the rounded `distance_km`;
`to_dict` includes the `conditions`/`pricing` sub-dictionaries only when the
corresponding row exists. -/

/-- Default search radius from `config.DEFAULT_SEARCH_RADIUS_KM`. -/
def DEFAULT_SEARCH_RADIUS_KM : ℚ := 200

/-- Maximum search radius from `config.MAX_SEARCH_RADIUS_KM`. -/
def MAX_SEARCH_RADIUS_KM : ℚ := 500

/-- Minimum search radius from `config.MIN_SEARCH_RADIUS_KM`. -/
def MIN_SEARCH_RADIUS_KM : ℚ := 10

/-- One entry of the result list. -/
structure SearchItem where
  name : String
  country : String
  conditions : Option CondRow
  pricing : Option PriceRow
  distance_km : ℚ
deriving DecidableEq, Repr

/-- `resort.to_dict()` plus the `distance_km` annotation. -/
def mkItem (r : ResortRow) (d : ℚ) : SearchItem :=
  ⟨r.name, r.country, r.conditions, r.pricing, d⟩

/-- Sort key of `sort=price`: `x.get("pricing", \x7b\x7d).get("adult_day_pass", 999)`.
A resort without a pricing row gets the sentinel 999; a pricing row always
carries the key, so a NULL price yields Python `None` (an incomparable key). -/
def priceKey (it : SearchItem) : Option ℚ :=
  match it.pricing with
  | none => some 999
  | some p => p.adult_day_pass

/-- Sort key of `sort=snow` (sorted descending): missing conditions give 0,
a NULL snow depth gives Python `None`. -/
def snowKey (it : SearchItem) : Option Int :=
  match it.conditions with
  | none => some 0
  | some c => c.snow_depth_mountain

/-- The sort step of `search_resorts`.  Comparing `None` with a number raises
`TypeError`; with two or more items every item takes part in at least one key
comparison, so the sort raises iff some key is `None` and the list has at
least two items.  An unrecognized sort key applies no sort at all. -/
def sortStep (sortBy : String) (items : List SearchItem) : Except PyErr (List SearchItem) :=
  if sortBy = "distance" then
    .ok (stableSort (fun a b => decide (a.distance_km ≤ b.distance_km)) items)
  else if sortBy = "name" then
    .ok (stableSort (fun a b => strLeB a.name b.name) items)
  else if sortBy = "price" then
    if decide (2 ≤ items.length) && items.any (fun it => (priceKey it).isNone) then
      .error .typeError
    else
      .ok (stableSort (fun a b => decide ((priceKey a).getD 0 ≤ (priceKey b).getD 0)) items)
  else if sortBy = "snow" then
    if decide (2 ≤ items.length) && items.any (fun it => (snowKey it).isNone) then
      .error .typeError
    else
      .ok (stableSort (fun a b => decide ((snowKey b).getD 0 ≤ (snowKey a).getD 0)) items)
  else .ok items

/-- Radius clamping: `radius = min(radius, MAX)` then `radius = max(radius, MIN)`,
with the default when the parameter is absent (or fails float conversion,
which Flask maps to the default). -/
def clampRadius (radiusParam : Option ℚ) : ℚ :=
  max (min (radiusParam.getD DEFAULT_SEARCH_RADIUS_KM) MAX_SEARCH_RADIUS_KM)
    MIN_SEARCH_RADIUS_KM

/-- Distance annotation and radius filter: keep resorts whose (unrounded)
distance is within the radius, annotated with the rounded distance. -/
def nearbyItems (dist : ℚ → ℚ → ℚ → ℚ → ℚ) (la ln radius : ℚ)
    (l : List ResortRow) : List SearchItem :=
  l.filterMap (fun r =>
    if dist la ln r.latitude r.longitude ≤ radius
    then some (mkItem r (pyRound1 (dist la ln r.latitude r.longitude))) else none)

/-- Client-visible error outcomes of the search route: the 400 response for
missing coordinates, or the 500 response produced by the broad
`except Exception` handler. -/
inductive SearchErr where
  | missingParams
  | serverError (e : PyErr)
deriving DecidableEq, Repr

/-- The successful response body. -/
structure SearchOutput where
  count : Nat
  user_lat : ℚ
  user_lng : ℚ
  radius_km : ℚ
  resorts : List SearchItem
deriving DecidableEq, Repr

/-- `search_resorts`: require both coordinates, clamp the radius, apply the
filters (exceptions become a 500), annotate and radius-filter, sort, and
report the list with its count and the echoed parameters. -/
def searchResorts (dist : ℚ → ℚ → ℚ → ℚ → ℚ) (lat lng radiusParam : Option ℚ)
    (sortBy : Option String) (filters : Filters) (resorts : List ResortRow) :
    Except SearchErr SearchOutput :=
  match lat, lng with
  | some la, some ln =>
    match applyFilters filters resorts with
    | .error e => .error (.serverError e)
    | .ok allR =>
      match sortStep (sortBy.getD "distance")
          (nearbyItems dist la ln (clampRadius radiusParam) allR) with
      | .error e => .error (.serverError e)
      | .ok sorted => .ok ⟨sorted.length, la, ln, clampRadius radiusParam, sorted⟩
  | _, _ => .error .missingParams

/-! ## Claim C7: which parameter problems produce client-visible errors -/

/-- C7 counterexample: a non-numeric `min_snow` value does NOT degrade to "no
constraint" — `int("abc")` raises `ValueError`, the route handler catches it
and returns a 500 error response, even though both coordinates are present. -/
theorem c7_error_counterexample :
    searchResorts (fun _ _ _ _ => 0) (some 46) (some 7) none none
      { min_snow := some "abc" } []
      = .error (.serverError .valueError) := by
  rfl

/-- C7 amended: the search raises a client-visible error for missing
geolocation AND for non-numeric numeric filter values (a 500 via the broad
exception handler); an unrecognized sort key, by contrast, does degrade —
the request succeeds and the filtered, distance-annotated list is returned
in filter order, exactly as if no sort parameter had been given. -/
theorem c7_unrecognized_sort_degrades (dist : ℚ → ℚ → ℚ → ℚ → ℚ)
    (la ln : ℚ) (radiusParam : Option ℚ) (sortBy : String) (f : Filters)
    (rs : List ResortRow) (hp : parsesOk f = true)
    (h1 : sortBy ≠ "distance") (h2 : sortBy ≠ "name") (h3 : sortBy ≠ "price")
    (h4 : sortBy ≠ "snow") :
    searchResorts dist (some la) (some ln) radiusParam (some sortBy) f rs
      = .ok ⟨(nearbyItems dist la ln (clampRadius radiusParam)
                (rs.filter (satisfiesAll f))).length,
             la, ln, clampRadius radiusParam,
             nearbyItems dist la ln (clampRadius radiusParam)
               (rs.filter (satisfiesAll f))⟩ := by
  simp only [searchResorts, applyFilters_eq f rs hp, Option.getD_some, sortStep,
    h1, h2, h3, h4, if_false]

/-- Witness for C7 amended: concrete unrecognized sort key `"foo"` with a
status filter. -/
theorem c7_unrecognized_sort_degrades_witness :
    searchResorts (fun _ _ _ _ => 0) (some 46) (some 7) none (some "foo")
      { status := some "open" } []
      = .ok ⟨0, 46, 7, 200, []⟩ := by
  have h := c7_unrecognized_sort_degrades (fun _ _ _ _ => 0) 46 7 none "foo"
    { status := some "open" } [] (by decide) (by decide) (by decide) (by decide) (by decide)
  simpa using h

/-! ## Claim C8: the price sort and its 999 sentinel -/

/-- Every pricing row (when present) has a price, and it is below the 999
sentinel. -/
def pricedBelowSentinel (it : SearchItem) : Bool :=
  match it.pricing with
  | none => true
  | some p =>
    match p.adult_day_pass with
    | none => false
    | some q => decide (q < 999)

/-- C8 counterexample: a record priced at 1000 sorts AFTER a record without
pricing (whose sentinel key is 999), so a record lacking pricing does not
always appear after all records that have pricing. -/
theorem c8_price_sort_counterexample :
    sortStep "price" [⟨"a", "CH", none, none, 0⟩,
        ⟨"z", "CH", none, some ⟨some 1000⟩, 0⟩]
      = .ok [⟨"a", "CH", none, none, 0⟩, ⟨"z", "CH", none, some ⟨some 1000⟩, 0⟩]
    ∧ (⟨"a", "CH", none, none, 0⟩ : SearchItem).pricing = none
    ∧ (⟨"z", "CH", none, some ⟨some 1000⟩, 0⟩ : SearchItem).pricing ≠ none := by
  refine ⟨by rfl, rfl, by decide⟩

/-- C8 amended: when every present price is below the 999 sentinel, sorting by
`price` puts the records in ascending order of the sentinel-defaulted price
key — so priced records appear in ascending price order and every record
lacking pricing appears after all of them, regardless of name. -/
theorem c8_price_sort (items : List SearchItem)
    (h : items.all pricedBelowSentinel = true) :
    ∃ l, sortStep "price" items = .ok l
      ∧ List.Pairwise (fun a b => (priceKey a).getD 0 ≤ (priceKey b).getD 0) l
      ∧ List.Pairwise (fun a b => a.pricing = none → b.pricing = none) l := by
  have hmem : ∀ it ∈ items, pricedBelowSentinel it = true := List.all_eq_true.mp h
  have hkeys : ∀ it ∈ items, ∃ q, priceKey it = some q ∧ q ≤ 999 ∧
      (it.pricing ≠ none → q < 999) := by
    intro it hit
    cases hpr : it.pricing with
    | none => exact ⟨999, by simp [priceKey, hpr], le_refl _, by simp [hpr]⟩
    | some p =>
      cases hq : p.adult_day_pass with
      | none =>
        have := hmem it hit
        simp [pricedBelowSentinel, hpr, hq] at this
      | some q =>
        have := hmem it hit
        simp only [pricedBelowSentinel, hpr, hq, decide_eq_true_eq] at this
        exact ⟨q, by simp [priceKey, hpr, hq], le_of_lt this, fun _ => this⟩
  have hany : items.any (fun it => (priceKey it).isNone) = false := by
    rw [List.any_eq_false]
    intro it hit
    obtain ⟨q, hq, -⟩ := hkeys it hit
    simp [hq]
  refine ⟨stableSort (fun a b => decide ((priceKey a).getD 0 ≤ (priceKey b).getD 0)) items,
    ?_, ?_, ?_⟩
  · simp [sortStep, hany]
  · have := pairwise_stableSort (fun a b => decide ((priceKey a).getD 0 ≤ (priceKey b).getD 0))
      (fun a b c hab hbc =>
        decide_eq_true (le_trans (of_decide_eq_true hab) (of_decide_eq_true hbc)))
      (fun a b => by
        rcases le_total ((priceKey a).getD 0) ((priceKey b).getD 0) with hle | hle
        · exact Or.inl (decide_eq_true hle)
        · exact Or.inr (decide_eq_true hle)) items
    exact this.imp (fun hab => of_decide_eq_true hab)
  · have hpw := pairwise_stableSort (fun a b => decide ((priceKey a).getD 0 ≤ (priceKey b).getD 0))
      (fun a b c hab hbc =>
        decide_eq_true (le_trans (of_decide_eq_true hab) (of_decide_eq_true hbc)))
      (fun a b => by
        rcases le_total ((priceKey a).getD 0) ((priceKey b).getD 0) with hle | hle
        · exact Or.inl (decide_eq_true hle)
        · exact Or.inr (decide_eq_true hle)) items
    refine hpw.imp_of_mem ?_
    intro a b ha hb hab hanone
    have ha2 := (mem_stableSort _ a items).mp ha
    have hb2 := (mem_stableSort _ b items).mp hb
    obtain ⟨qa, hqa, -, -⟩ := hkeys a ha2
    obtain ⟨qb, hqb, -, hqb3⟩ := hkeys b hb2
    by_contra hbp
    have hb999 : qb < 999 := hqb3 hbp
    have ha999 : qa = 999 := by
      rw [priceKey, hanone] at hqa
      exact (Option.some_inj.mp hqa).symm
    have : qa ≤ qb := by
      have := of_decide_eq_true hab
      rw [hqa, hqb] at this
      simpa using this
    rw [ha999] at this
    exact absurd (lt_of_le_of_lt this hb999) (lt_irrefl _)

/-- Witness for C8 amended: three records — priced 80, unpriced (named first
alphabetically), priced 60. -/
theorem c8_price_sort_witness :
    ∃ l, sortStep "price" [⟨"b", "CH", none, some ⟨some 80⟩, 0⟩,
        ⟨"a", "CH", none, none, 0⟩, ⟨"c", "CH", none, some ⟨some 60⟩, 0⟩] = .ok l
      ∧ List.Pairwise (fun a b => (priceKey a).getD 0 ≤ (priceKey b).getD 0) l
      ∧ List.Pairwise (fun a b => a.pricing = none → b.pricing = none) l :=
  c8_price_sort _ (by decide)

/-! ## Forecast scraping (`BergfexScraper.scrape_forecast`)

A day element is modelled by the outcomes of the queries the source performs
on it: the text of its `.temp` nodes, the text of its `.snow`/`.fresh-snow`
node if present, and the `src` of its `img` if present.  The module never
imports `os`, so reaching `os.path.basename` (any day with an `img`) raises
`NameError`; the broad `except` then returns `[]`. -/

structure DayEl where
  temps : List String
  snow : Option String
  img : Option String
deriving DecidableEq, Repr

/-- The forecast page: `none` container when no `.forecast9d` element exists. -/
structure ForecastDoc where
  container : Option (List DayEl)
deriving DecidableEq, Repr

/-- One forecast day; `date` is `today + dayIndex` days. -/
structure ForecastDay where
  dayIndex : Nat
  temp_min : Option Int
  temp_max : Option Int
  snow_forecast_cm : Option Nat
  symbol : Option String
deriving DecidableEq, Repr

/-- Python `max` over a nonempty list (0 for the empty list, unreached). -/
def listMax : List Int → Int
  | [] => 0
  | x :: xs => xs.foldl max x

/-- Python `min` over a nonempty list (0 for the empty list, unreached). -/
def listMin : List Int → Int
  | [] => 0
  | x :: xs => xs.foldl min x

/-- The per-day dictionary built by `scrape_forecast` before the `img`
handling: temperatures from the numeric `.temp` values when there are at
least two; `snow_forecast_cm` from the first integer of the snow node when
the node is present, and the default 0 only when the node is absent — a snow
node with no integer leaves the field unset.  The symbol is never set
because the `img` branch raises before assigning it. -/
def mkForecastDay (i : Nat) (de : DayEl) : ForecastDay :=
  let vals := de.temps.filterMap (fun t => firstSignedInt t.data)
  { dayIndex := i,
    temp_max := if 2 ≤ vals.length then some (listMax vals) else none,
    temp_min := if 2 ≤ vals.length then some (listMin vals) else none,
    snow_forecast_cm :=
      match de.snow with
      | some t => firstNat t.data
      | none => some 0,
    symbol := none }

/-- Process the (at most 7) day elements in order; a day with an `img` hits
the unbound `os` name and raises `NameError`, aborting the whole list. -/
def buildForecasts : Nat → List DayEl → Except PyErr (List ForecastDay)
  | _, [] => .ok []
  | i, de :: rest =>
    if de.img.isSome then .error .nameError
    else
      match buildForecasts (i+1) rest with
      | .ok l => .ok (mkForecastDay i de :: l)
      | .error e => .error e

/-- `scrape_forecast`: `[]` when the fetch failed, the container is missing,
or any exception was raised while walking the day elements. -/
def scrapeForecast : Option ForecastDoc → List ForecastDay
  | none => []
  | some fd =>
    match fd.container with
    | none => []
    | some days =>
      match buildForecasts 0 (days.take 7) with
      | .ok l => l
      | .error _ => []

/-! ## Weather service (`WeatherService.get_forecast`)

The parsed `daily` object of the Open-Meteo response: parallel arrays that
may contain nulls.  `none` for the whole response models a request failure,
bad JSON, or a missing `daily` key. -/

structure DailyData where
  time : List String
  temperature_2m_max : List (Option ℚ)
  temperature_2m_min : List (Option ℚ)
  snowfall_sum : List (Option ℚ)
  weathercode : List (Option Int)
deriving DecidableEq, Repr

/-- `WeatherService._map_weather_code`: the fixed WMO lookup table,
`"unknown"` for unmapped codes (including a null code). -/
def mapWeatherCode : Option Int → String
  | some 0 => "sunny"
  | some 1 => "mostly_sunny"
  | some 2 => "partly_cloudy"
  | some 3 => "cloudy"
  | some 45 => "fog"
  | some 48 => "fog"
  | some 51 => "drizzle"
  | some 53 => "drizzle"
  | some 55 => "drizzle"
  | some 61 => "rain"
  | some 63 => "rain"
  | some 65 => "rain"
  | some 71 => "snow"
  | some 73 => "snow"
  | some 75 => "snow"
  | some 77 => "snow_grains"
  | some 80 => "rain_showers"
  | some 81 => "rain_showers"
  | some 82 => "rain_showers"
  | some 85 => "snow_showers"
  | some 86 => "snow_showers"
  | some 95 => "thunderstorm"
  | _ => "unknown"

/-- One day of the coordinate-based forecast.  The dictionary always carries
`snow_forecast_cm = int(snowfall_sum[i])`, so the field is total here. -/
structure WDay where
  date : String
  temp_max : Option ℚ
  temp_min : Option ℚ
  snow_forecast_cm : Int
  symbol : String
deriving DecidableEq, Repr

/-- The `for i in range(len(daily["time"]))` loop: a missing parallel entry
raises `IndexError`, a null snowfall raises `TypeError` in `int(...)`; any
raise aborts the whole loop (the surrounding handler returns `[]`). -/
def buildWDays (d : DailyData) : Nat → Nat → Except PyErr (List WDay)
  | _, 0 => .ok []
  | i, rem+1 =>
    match d.time.get? i with
    | none => .error .indexError
    | some date =>
      match d.temperature_2m_max.get? i, d.temperature_2m_min.get? i,
          d.snowfall_sum.get? i, d.weathercode.get? i with
      | some tmax, some tmin, some sf, some wc =>
        match sf with
        | some q =>
          match buildWDays d (i+1) rem with
          | .ok l =>
            .ok ({ date := date, temp_max := tmax, temp_min := tmin,
                   snow_forecast_cm := pyTrunc q, symbol := mapWeatherCode wc } :: l)
          | .error e => .error e
        | none => .error .typeError
      | _, _, _, _ => .error .indexError

/-- `WeatherService.get_forecast`: `[]` on any failure, otherwise one `WDay`
per entry of `daily["time"]`. -/
def weatherGetForecast (resp : Option DailyData) : List WDay :=
  match resp with
  | none => []
  | some d =>
    match buildWDays d 0 d.time.length with
    | .ok l => l
    | .error _ => []

/-! ## Structured-data pass of `scrape_resort` (JSON-LD scripts)

`json.loads` of a script yields a JSON value (or fails — `none`).  The
per-script `try` catches only `(json.JSONDecodeError, TypeError, ValueError,
KeyError)`; an `AttributeError` — raised by `.get` on any non-dict — escapes
to the outer handler of `scrape_resort`, which returns `None`. -/

inductive Json where
  | null
  | bool (b : Bool)
  | num (q : ℚ)
  | str (s : String)
  | arr (xs : List Json)
  | obj (fields : List (String × Json))

/-- Dictionary lookup, first binding wins. -/
def jlookup : List (String × Json) → String → Option Json
  | [], _ => none
  | (k, v) :: fs, key => if k == key then some v else jlookup fs key

/-- Python `'key' in item` on a dict. -/
def hasKey (fs : List (String × Json)) (key : String) : Bool := (jlookup fs key).isSome

/-- Python truthiness of a JSON value. -/
def truthy : Json → Bool
  | .null => false
  | .bool b => b
  | .num q => decide (q ≠ 0)
  | .str s => decide (s ≠ "")
  | .arr xs => !xs.isEmpty
  | .obj fs => !fs.isEmpty

/-- Python `x == "SkiResort"` for a JSON value. -/
def jsonIsStr (j : Json) (s : String) : Bool :=
  match j with
  | .str t => t == s
  | _ => false

/-- Python `float(x)` on a JSON value (or `None` when the key was absent):
numbers and numeric strings convert, booleans convert to 0/1, everything
else raises `TypeError`/`ValueError`. -/
def pyFloatJson : Option Json → Except PyErr ℚ
  | none => .error .typeError
  | some .null => .error .typeError
  | some (.bool b) => .ok (if b then 1 else 0)
  | some (.num q) => .ok q
  | some (.str s) =>
    match pyFloat s with
    | some q => .ok q
    | none => .error .valueError
  | some (.arr _) => .error .typeError
  | some (.obj _) => .error .typeError

/-- Python `x[:1000]`: slices strings and lists, raises `TypeError` otherwise. -/
def slice1000 : Json → Except PyErr Json
  | .str s => .ok (.str ⟨s.data.take 1000⟩)
  | .arr xs => .ok (.arr (xs.take 1000))
  | _ => .error .typeError

/-- The record dictionary accumulated by `scrape_resort` (`data`), with the
`conditions` sub-dictionary flattened into the two snow-depth fields. -/
structure RecState where
  name : Option String := none
  latitude : Option ℚ := none
  longitude : Option ℚ := none
  description : Option Json := none
  region : Option Json := none
  altitude_min : Option Nat := none
  altitude_max : Option Nat := none
  snow_depth_mountain : Option Nat := none
  snow_depth_valley : Option Nat := none
  status : Option String := none
  forecasts : List ForecastDay := []

/-- Exception kinds caught by the per-script handler of pass 2. -/
def PyErr.isCaught : PyErr → Bool
  | .jsonDecode => true
  | .typeError => true
  | .valueError => true
  | .keyError => true
  | _ => false

/-- The `if 'address' in item:` step: `item["address"].get("addressRegion")`
raises `AttributeError` when the address is not a dict; the assignment
stores the lookup result even when it is null. -/
def processAddr (r : RecState) (fields : List (String × Json)) : RecState × Option PyErr :=
  if hasKey fields "address" then
    match (jlookup fields "address").getD .null with
    | .obj af => ({r with region := jlookup af "addressRegion"}, none)
    | _ => (r, some .attrError)
  else (r, none)

/-- The `if 'description' in item:` step: slice to 1000, then the address step. -/
def processDesc (r : RecState) (fields : List (String × Json)) : RecState × Option PyErr :=
  if hasKey fields "description" then
    match slice1000 ((jlookup fields "description").getD .null) with
    | .ok v => processAddr {r with description := some v} fields
    | .error e => (r, some e)
  else processAddr r fields

/-- The `geo = item.get('geo', \x7b\x7d)` step: when `geo` is truthy, read
`float(geo.get('latitude'))` then `float(geo.get('longitude'))` (each may
raise, keeping earlier assignments); `.get` on a truthy non-dict raises
`AttributeError`. -/
def processGeo (r : RecState) (fields : List (String × Json)) : RecState × Option PyErr :=
  match (jlookup fields "geo").getD (.obj []) with
  | .obj gf =>
    if truthy (.obj gf) then
      match pyFloatJson (jlookup gf "latitude") with
      | .error e => (r, some e)
      | .ok la =>
        match pyFloatJson (jlookup gf "longitude") with
        | .error e => ({r with latitude := some la}, some e)
        | .ok lo => processDesc {r with latitude := some la, longitude := some lo} fields
    else processDesc r fields
  | g =>
    if truthy g then (r, some .attrError)
    else processDesc r fields

/-- One item of a structured-data block: `item.get('@type')` raises
`AttributeError` on a non-dict item; a matching item runs the geo,
description and address steps in order. -/
def processItem (r : RecState) (item : Json) : RecState × Option PyErr :=
  match item with
  | .obj fields =>
    if jsonIsStr ((jlookup fields "@type").getD .null) "SkiResort" || hasKey fields "geo"
    then processGeo r fields
    else (r, none)
  | _ => (r, some .attrError)

/-- The `for item in items:` loop; the first raise aborts the rest of this
script, keeping mutations already made. -/
def processItems (r : RecState) : List Json → RecState × Option PyErr
  | [] => (r, none)
  | item :: rest =>
    match processItem r item with
    | (r', none) => processItems r' rest
    | (r', some e) => (r', some e)

/-- One script: a parse failure is caught (`continue`); a list parses to its
items, anything else to a single item; a caught exception continues with the
next script, anything else (an `AttributeError`) escapes — the `Bool` is the
escape flag. -/
def processScript (r : RecState) (parsed : Option Json) : RecState × Bool :=
  match parsed with
  | none => (r, false)
  | some j =>
    match processItems r (match j with | .arr xs => xs | _ => [j]) with
    | (r', none) => (r', false)
    | (r', some e) => (r', !e.isCaught)

/-- The `for script in scripts:` loop; an escaping exception aborts the rest. -/
def processScripts (r : RecState) : List (Option Json) → RecState × Bool
  | [] => (r, false)
  | sc :: rest =>
    match processScript r sc with
    | (r', false) => processScripts r' rest
    | (r', true) => (r', true)

/-! ## `scrape_resort` -/

/-- A resort detail page, modelled by the outcomes of the queries
`scrape_resort` performs on it: the `h1` text, the parse result of each
JSON-LD script, the two integers of the first altitude-regex match, whether
the current-information panel exists, the `Mountain:`/`Valley:` label with
the text of its following sibling (outer option: label found; inner: sibling
exists), the status element text, and the fetched forecast sub-page. -/
structure ResortDoc where
  h1 : Option String
  ldScripts : List (Option Json)
  altitudeMatch : Option (Nat × Nat)
  snowPanel : Bool
  mountainSib : Option (Option String)
  valleySib : Option (Option String)
  statusText : Option String
  forecastPage : Option ForecastDoc

/-- Pass 1: `data['name']` from the `h1` text when present. -/
def initRec (d : ResortDoc) : RecState := { name := d.h1 }

/-- Pass 3: first `<int>m - <int>m` match sets both altitude bounds. -/
def pass3Alt (r : RecState) (d : ResortDoc) : RecState :=
  match d.altitudeMatch with
  | some lohi => {r with altitude_min := some lohi.1, altitude_max := some lohi.2}
  | none => r

/-- Label-fallback extraction: the first integer of the sibling text of a
found label. -/
def mountainExtract : Option (Option String) → Option Nat
  | some (some t) => firstNat t.data
  | _ => none

/-- Pass 4: only the label fallback is implemented — it runs when the
current-information panel is NOT found (`if not snow_info:`). -/
def pass4Snow (r : RecState) (d : ResortDoc) : RecState :=
  if d.snowPanel then r
  else
    let r2 :=
      match d.mountainSib with
      | some (some txt) =>
        match firstNat txt.data with
        | some n => {r with snow_depth_mountain := some n}
        | none => r
      | _ => r
    match d.valleySib with
    | some (some txt) =>
      match firstNat txt.data with
      | some n => {r2 with snow_depth_valley := some n}
      | none => r2
    | _ => r2

/-- Classification of the status element text: `open` if the lowercased text
contains "open", else `closed` if it contains "closed", else `partial`. -/
def classifyStatus (t : String) : String :=
  if containsSub (lowerStr t).data "open".data then "open"
  else if containsSub (lowerStr t).data "closed".data then "closed"
  else "partial"

/-- Pass 5: classify the status element when present. -/
def pass5Status (r : RecState) (d : ResortDoc) : RecState :=
  match d.statusText with
  | some t => {r with status := some (classifyStatus t)}
  | none => r

/-- Pass 6: `if forecast_data:` — a nonempty forecast list replaces the
default `[]`. -/
def pass6Forecast (r : RecState) (d : ResortDoc) : RecState :=
  match scrapeForecast d.forecastPage with
  | [] => r
  | f :: fs => {r with forecasts := f :: fs}

/-- `scrape_resort`: `None` when the fetch failed (or returned an empty or
falsy document), then the six passes over the parsed document; an exception
escaping pass 2 reaches the outer `except Exception` and yields `None`. -/
def scrapeResort (html : Option ResortDoc) : Option RecState :=
  match html with
  | none => none
  | some d =>
    match processScripts (initRec d) d.ldScripts with
    | (_, true) => none
    | (r2, false) => some (pass6Forecast (pass5Status (pass4Snow (pass3Alt r2 d) d) d) d)

/-! ## Frame lemmas: pass 2 touches only latitude, longitude, description,
region -/

/-- The fields NOT written by the structured-data pass. -/
def nonGeo (r : RecState) :
    Option String × Option Nat × Option Nat × Option Nat × Option Nat × Option String
      × List ForecastDay :=
  (r.name, r.altitude_min, r.altitude_max, r.snow_depth_mountain, r.snow_depth_valley,
    r.status, r.forecasts)

theorem processAddr_nonGeo (r : RecState) (fs : List (String × Json)) :
    nonGeo (processAddr r fs).1 = nonGeo r := by
  simp only [processAddr]
  split
  · split <;> rfl
  · rfl

theorem processDesc_nonGeo (r : RecState) (fs : List (String × Json)) :
    nonGeo (processDesc r fs).1 = nonGeo r := by
  simp only [processDesc]
  split
  · split
    · rw [processAddr_nonGeo]; rfl
    · rfl
  · exact processAddr_nonGeo r fs

theorem processGeo_nonGeo (r : RecState) (fs : List (String × Json)) :
    nonGeo (processGeo r fs).1 = nonGeo r := by
  simp only [processGeo]
  split
  · split
    · split
      · rfl
      · split
        · rfl
        · rw [processDesc_nonGeo]; rfl
    · exact processDesc_nonGeo r fs
  · split
    · rfl
    · exact processDesc_nonGeo r fs

theorem processItem_nonGeo (r : RecState) (item : Json) :
    nonGeo (processItem r item).1 = nonGeo r := by
  cases item with
  | obj fields =>
    simp only [processItem]
    split
    · exact processGeo_nonGeo r fields
    · rfl
  | null => rfl
  | bool b => rfl
  | num q => rfl
  | str s => rfl
  | arr xs => rfl

theorem processItems_nonGeo : ∀ (l : List Json) (r : RecState),
    nonGeo (processItems r l).1 = nonGeo r := by
  intro l
  induction l with
  | nil => intro r; rfl
  | cons item rest ih =>
    intro r
    simp only [processItems]
    rcases hpi : processItem r item with ⟨r2, e⟩
    have h1 : nonGeo r2 = nonGeo r := by
      have h := processItem_nonGeo r item
      rw [hpi] at h
      exact h
    cases e with
    | none =>
      show nonGeo (processItems r2 rest).1 = nonGeo r
      rw [ih r2, h1]
    | some err =>
      show nonGeo r2 = nonGeo r
      exact h1

theorem processScript_nonGeo (r : RecState) (parsed : Option Json) :
    nonGeo (processScript r parsed).1 = nonGeo r := by
  cases parsed with
  | none => rfl
  | some j =>
    simp only [processScript]
    generalize (match j with | Json.arr xs => xs | _ => [j]) = items
    rcases hpi : processItems r items with ⟨r2, e⟩
    have h1 : nonGeo r2 = nonGeo r := by
      have h := processItems_nonGeo items r
      rw [hpi] at h
      exact h
    cases e with
    | none => exact h1
    | some err => exact h1

theorem processScripts_nonGeo : ∀ (l : List (Option Json)) (r : RecState),
    nonGeo (processScripts r l).1 = nonGeo r := by
  intro l
  induction l with
  | nil => intro r; rfl
  | cons sc rest ih =>
    intro r
    simp only [processScripts]
    rcases hps : processScript r sc with ⟨r2, esc⟩
    have h1 : nonGeo r2 = nonGeo r := by
      have h := processScript_nonGeo r sc
      rw [hps] at h
      exact h
    cases esc with
    | false =>
      show nonGeo (processScripts r2 rest).1 = nonGeo r
      rw [ih r2, h1]
    | true =>
      show nonGeo r2 = nonGeo r
      exact h1

/-! ## Characterization of the later passes -/

theorem pass3Alt_eq (r : RecState) (d : ResortDoc) :
    pass3Alt r d = {r with
      altitude_min := (d.altitudeMatch.map Prod.fst).or r.altitude_min,
      altitude_max := (d.altitudeMatch.map Prod.snd).or r.altitude_max} := by
  cases h : d.altitudeMatch <;> simp [pass3Alt, h, Option.or]

theorem pass4Snow_eq (r : RecState) (d : ResortDoc) :
    pass4Snow r d = {r with
      snow_depth_mountain := if d.snowPanel then r.snow_depth_mountain
        else (mountainExtract d.mountainSib).or r.snow_depth_mountain,
      snow_depth_valley := if d.snowPanel then r.snow_depth_valley
        else (mountainExtract d.valleySib).or r.snow_depth_valley} := by
  by_cases hp : d.snowPanel = true
  · simp [pass4Snow, hp]
  · have hp2 : d.snowPanel = false := by simpa using hp
    rcases hm : d.mountainSib with _ | (_ | mt)
    · rcases hv : d.valleySib with _ | (_ | vt)
      · simp [pass4Snow, hp2, hm, hv, mountainExtract, Option.or]
      · simp [pass4Snow, hp2, hm, hv, mountainExtract, Option.or]
      · cases hfv : firstNat vt.data <;>
          simp [pass4Snow, hp2, hm, hv, hfv, mountainExtract, Option.or]
    · rcases hv : d.valleySib with _ | (_ | vt)
      · simp [pass4Snow, hp2, hm, hv, mountainExtract, Option.or]
      · simp [pass4Snow, hp2, hm, hv, mountainExtract, Option.or]
      · cases hfv : firstNat vt.data <;>
          simp [pass4Snow, hp2, hm, hv, hfv, mountainExtract, Option.or]
    · cases hfm : firstNat mt.data
      · rcases hv : d.valleySib with _ | (_ | vt)
        · simp [pass4Snow, hp2, hm, hv, hfm, mountainExtract, Option.or]
        · simp [pass4Snow, hp2, hm, hv, hfm, mountainExtract, Option.or]
        · cases hfv : firstNat vt.data <;>
            simp [pass4Snow, hp2, hm, hv, hfm, hfv, mountainExtract, Option.or]
      · rcases hv : d.valleySib with _ | (_ | vt)
        · simp [pass4Snow, hp2, hm, hv, hfm, mountainExtract, Option.or]
        · simp [pass4Snow, hp2, hm, hv, hfm, mountainExtract, Option.or]
        · cases hfv : firstNat vt.data <;>
            simp [pass4Snow, hp2, hm, hv, hfm, hfv, mountainExtract, Option.or]

theorem pass5Status_eq (r : RecState) (d : ResortDoc) :
    pass5Status r d = {r with status := (d.statusText.map classifyStatus).or r.status} := by
  cases h : d.statusText <;> simp [pass5Status, h, Option.or]

theorem pass6Forecast_eq (r : RecState) (d : ResortDoc) :
    pass6Forecast r d = {r with
      forecasts := if scrapeForecast d.forecastPage = [] then r.forecasts
        else scrapeForecast d.forecastPage} := by
  cases h : scrapeForecast d.forecastPage <;> simp [pass6Forecast, h]

/-! ## Claim C3: when does `scrape_resort` return `None` -/

/-- C3 amended: `scrape_resort` returns `None` exactly when the fetched
document is absent (fetch failure or falsy text) or the structured-data pass
raises an unhandled exception (a non-dict JSON-LD item, or a truthy non-dict
`geo` or non-dict `address` value).  A missing title does NOT produce `None`:
every other document yields a partial record with missing fields unset. -/
theorem c3_extraction_failed_iff (h : Option ResortDoc) :
    scrapeResort h = none ↔
      h = none ∨ ∃ d, h = some d ∧ (processScripts (initRec d) d.ldScripts).2 = true := by
  cases h with
  | none => simp [scrapeResort]
  | some d =>
    simp only [scrapeResort]
    rcases hps : processScripts (initRec d) d.ldScripts with ⟨r2, crash⟩
    cases crash with
    | false => simp [hps]
    | true => simp [hps]

/-- Witness for C3 amended: the characterization applied at the absent
document. -/
theorem c3_extraction_failed_iff_witness :
    scrapeResort none = none ↔
      (none : Option ResortDoc) = none
      ∨ ∃ d, (none : Option ResortDoc) = some d
          ∧ (processScripts (initRec d) d.ldScripts).2 = true :=
  c3_extraction_failed_iff none

/-- Concrete document for the C3 counterexample: it parses, its title is
present, but its JSON-LD script holds the number 5. -/
def c3doc : ResortDoc where
  h1 := some "Zermatt"
  ldScripts := [some (Json.num 5)]
  altitudeMatch := none
  snowPanel := false
  mountainSib := none
  valleySib := none
  statusText := none
  forecastPage := none

/-- C3 counterexample: a document whose markup parses and whose title is
present (`h1 = "Zermatt"`) on which `scrape_resort` nevertheless returns
`None` — its JSON-LD script holds the number 5, so `item.get("@type")`
raises `AttributeError`, which the per-script handler does not catch. -/
theorem c3_counterexample :
    scrapeResort (some c3doc) = none ∧ c3doc.h1 ≠ none := by
  exact ⟨rfl, by decide⟩

/-! ## Claim C4: independence of the extraction passes -/

/-- C4 amended: on every document where the structured-data pass raises no
unhandled exception, `scrape_resort` returns the record whose every field is
computed by its own pass alone — the title from `h1`, coordinates,
description and region from the structured-data blocks, the altitude band
from the regex match, snow depths from the label fallback, the status from
its element, the forecasts from the forecast sub-page — so a failure or
absence in one pass never discards another pass's fields. -/
theorem c4_pass_independence (d : ResortDoc)
    (hok : (processScripts (initRec d) d.ldScripts).2 = false) :
    scrapeResort (some d) = some {
      name := d.h1,
      latitude := (processScripts (initRec d) d.ldScripts).1.latitude,
      longitude := (processScripts (initRec d) d.ldScripts).1.longitude,
      description := (processScripts (initRec d) d.ldScripts).1.description,
      region := (processScripts (initRec d) d.ldScripts).1.region,
      altitude_min := d.altitudeMatch.map Prod.fst,
      altitude_max := d.altitudeMatch.map Prod.snd,
      snow_depth_mountain := if d.snowPanel then none else mountainExtract d.mountainSib,
      snow_depth_valley := if d.snowPanel then none else mountainExtract d.valleySib,
      status := d.statusText.map classifyStatus,
      forecasts := scrapeForecast d.forecastPage } := by
  have hng := processScripts_nonGeo d.ldScripts (initRec d)
  have hname : (processScripts (initRec d) d.ldScripts).1.name = d.h1 :=
    congrArg (fun t => t.1) hng
  have halt1 : (processScripts (initRec d) d.ldScripts).1.altitude_min = none :=
    congrArg (fun t => t.2.1) hng
  have halt2 : (processScripts (initRec d) d.ldScripts).1.altitude_max = none :=
    congrArg (fun t => t.2.2.1) hng
  have hsm : (processScripts (initRec d) d.ldScripts).1.snow_depth_mountain = none :=
    congrArg (fun t => t.2.2.2.1) hng
  have hsv : (processScripts (initRec d) d.ldScripts).1.snow_depth_valley = none :=
    congrArg (fun t => t.2.2.2.2.1) hng
  have hst : (processScripts (initRec d) d.ldScripts).1.status = none :=
    congrArg (fun t => t.2.2.2.2.2.1) hng
  have hfc : (processScripts (initRec d) d.ldScripts).1.forecasts = [] :=
    congrArg (fun t => t.2.2.2.2.2.2) hng
  have hsc : processScripts (initRec d) d.ldScripts
      = ((processScripts (initRec d) d.ldScripts).1, false) := by
    rw [← hok]
  have hgoal : scrapeResort (some d)
      = some (pass6Forecast (pass5Status (pass4Snow (pass3Alt
          (processScripts (initRec d) d.ldScripts).1 d) d) d) d) := by
    simp only [scrapeResort]
    rw [hsc]
  rw [hgoal, pass3Alt_eq, pass4Snow_eq, pass5Status_eq, pass6Forecast_eq]
  simp only [hname, halt1, halt2, hsm, hsv, hst, hfc]
  cases hl : scrapeForecast d.forecastPage with
  | nil =>
    cases haltm : d.altitudeMatch <;> cases hstt : d.statusText <;>
      cases hms : mountainExtract d.mountainSib <;>
      cases hvs : mountainExtract d.valleySib <;>
      cases hsp : d.snowPanel <;>
      simp [Option.or, haltm, hstt, hms, hvs, hsp]
  | cons f fs =>
    cases haltm : d.altitudeMatch <;> cases hstt : d.statusText <;>
      cases hms : mountainExtract d.mountainSib <;>
      cases hvs : mountainExtract d.valleySib <;>
      cases hsp : d.snowPanel <;>
      simp [Option.or, haltm, hstt, hms, hvs, hsp]

/-- Concrete document for the C4 witness: every pass finds its target. -/
def c4doc : ResortDoc where
  h1 := some "Title"
  ldScripts := [some (Json.obj [("@type", Json.str "SkiResort"),
    ("geo", Json.obj [("latitude", Json.num 46), ("longitude", Json.num 7)])])]
  altitudeMatch := some (1000, 3000)
  snowPanel := false
  mountainSib := some (some "Mountain: 120 cm")
  valleySib := some none
  statusText := some "Lifts open"
  forecastPage := none

/-- The record `scrape_resort` produces on `c4doc`. -/
def c4rec : RecState where
  name := some "Title"
  latitude := some 46
  longitude := some 7
  description := none
  region := none
  altitude_min := some 1000
  altitude_max := some 3000
  snow_depth_mountain := some 120
  snow_depth_valley := none
  status := some "open"
  forecasts := []

/-- Witness for C4 amended at a concrete document populating every pass. -/
theorem c4_pass_independence_witness :
    scrapeResort (some c4doc) = some c4rec := by
  have h := c4_pass_independence c4doc rfl
  exact h.trans (by rfl)

/-- Concrete document for the C4 counterexample: a present title and a
matching altitude band, plus one JSON-LD script parsing to `null`. -/
def c4cdoc : ResortDoc where
  h1 := some "Title"
  ldScripts := [some Json.null]
  altitudeMatch := some (1000, 3000)
  snowPanel := false
  mountainSib := none
  valleySib := none
  statusText := none
  forecastPage := none

/-- C4 counterexample: on `c4cdoc` the structured-data pass raises an
uncaught `AttributeError` (`None.get`), and the whole record — including the
fields already populated by passes 1 and 3 — is discarded (`None`). -/
theorem c4_counterexample :
    scrapeResort (some c4cdoc) = none
    ∧ c4cdoc.h1 ≠ none ∧ c4cdoc.altitudeMatch ≠ none := by
  exact ⟨rfl, by decide, by decide⟩

/-! ## Claim C9: the `snow_forecast_cm` default -/

theorem buildWDays_snow (dd : DailyData) : ∀ (rem i j : Nat) (l : List WDay) (day : WDay),
    buildWDays dd i rem = .ok l → l.get? j = some day →
    ∃ q, dd.snowfall_sum.get? (i + j) = some (some q)
      ∧ day.snow_forecast_cm = pyTrunc q := by
  intro rem
  induction rem with
  | zero =>
    intro i j l day hok hget
    simp only [buildWDays] at hok
    obtain rfl : ([] : List WDay) = l := by injection hok
    simp at hget
  | succ rem ih =>
    intro i j l day hok hget
    simp only [buildWDays] at hok
    cases ht : dd.time.get? i with
    | none => rw [ht] at hok; exact absurd hok (by simp)
    | some date =>
      rw [ht] at hok
      cases h1 : dd.temperature_2m_max.get? i with
      | none => rw [h1] at hok; exact absurd hok (by simp)
      | some tmax =>
        cases h2 : dd.temperature_2m_min.get? i with
        | none => rw [h1, h2] at hok; exact absurd hok (by simp)
        | some tmin =>
          cases h3 : dd.snowfall_sum.get? i with
          | none => rw [h1, h2, h3] at hok; exact absurd hok (by simp)
          | some sf =>
            cases h4 : dd.weathercode.get? i with
            | none => rw [h1, h2, h3, h4] at hok; exact absurd hok (by simp)
            | some wc =>
              rw [h1, h2, h3, h4] at hok
              cases sf with
              | none => exact absurd hok (by simp)
              | some q =>
                cases hbw : buildWDays dd (i+1) rem with
                | error e => rw [hbw] at hok; exact absurd hok (by simp)
                | ok l2 =>
                  rw [hbw] at hok
                  injection hok with hok2
                  subst hok2
                  cases j with
                  | zero =>
                    simp only [List.get?] at hget
                    injection hget with hday
                    subst hday
                    exact ⟨q, by simpa using h3, rfl⟩
                  | succ jj =>
                    have := ih (i+1) jj l2 day hbw (by simpa using hget)
                    rw [show i + (jj + 1) = (i + 1) + jj by omega]
                    exact this

theorem buildForecasts_mem : ∀ (days : List DayEl) (i : Nat) (l : List ForecastDay),
    buildForecasts i days = .ok l → ∀ day ∈ l, ∃ j de, day = mkForecastDay j de := by
  intro days
  induction days with
  | nil =>
    intro i l h day hd
    simp only [buildForecasts] at h
    obtain rfl : ([] : List ForecastDay) = l := by injection h
    simp at hd
  | cons de rest ih =>
    intro i l h day hd
    simp only [buildForecasts] at h
    by_cases himg : de.img.isSome = true
    · rw [if_pos himg] at h; exact absurd h (by simp)
    · rw [if_neg himg] at h
      cases hb : buildForecasts (i+1) rest with
      | error e => rw [hb] at h; exact absurd h (by simp)
      | ok l2 =>
        rw [hb] at h
        injection h with h2
        subst h2
        rcases List.mem_cons.mp hd with rfl | hd2
        · exact ⟨i, de, rfl⟩
        · exact ih (i+1) l2 hb day hd2

/-- C9 counterexample: a forecast page whose single day element carries a
snow-tagged node with no integer — the produced `ForecastDay` has
`snow_forecast_cm` unset (`None`), not 0. -/
theorem c9_counterexample :
    (scrapeForecast (some ⟨some [⟨[], some "heavy snowfall expected", none⟩]⟩)).map
      (fun fd => fd.snow_forecast_cm) = [none] := by
  rfl

/-- C9 amended: in the page-based source every produced day comes from
`mkForecastDay`, where `snow_forecast_cm` defaults to 0 only when the snow
node is absent and equals the first integer of the node text when present
(hence unset when that text holds no integer); in the coordinate-based
source every returned day carries the truncated integer of a non-null
snowfall entry. -/
theorem c9_snow_semantics :
    (∀ (i : Nat) (de : DayEl), de.snow = none →
      (mkForecastDay i de).snow_forecast_cm = some 0)
    ∧ (∀ (i : Nat) (de : DayEl) (t : String), de.snow = some t →
      (mkForecastDay i de).snow_forecast_cm = firstNat t.data)
    ∧ (∀ (fdoc : Option ForecastDoc) (day : ForecastDay), day ∈ scrapeForecast fdoc →
      ∃ j de, day = mkForecastDay j de)
    ∧ (∀ (dd : DailyData) (j : Nat) (day : WDay),
      (weatherGetForecast (some dd)).get? j = some day →
      ∃ q, dd.snowfall_sum.get? j = some (some q)
        ∧ day.snow_forecast_cm = pyTrunc q) := by
  refine ⟨?_, ?_, ?_, ?_⟩
  · intro i de h; simp [mkForecastDay, h]
  · intro i de t h; simp [mkForecastDay, h]
  · intro fdoc day hd
    cases fdoc with
    | none => simp [scrapeForecast] at hd
    | some fd =>
      simp only [scrapeForecast] at hd
      cases hc : fd.container with
      | none => simp only [hc] at hd; simp at hd
      | some days =>
        simp only [hc] at hd
        cases hb : buildForecasts 0 (days.take 7) with
        | error e => simp only [hb] at hd; simp at hd
        | ok l =>
          simp only [hb] at hd
          exact buildForecasts_mem (days.take 7) 0 l hb day hd
  · intro dd j day hg
    simp only [weatherGetForecast] at hg
    cases hb : buildWDays dd 0 dd.time.length with
    | error e => simp only [hb] at hg; simp at hg
    | ok l =>
      simp only [hb] at hg
      have := buildWDays_snow dd dd.time.length 0 j l day hb hg
      simpa using this

/-- Witness for C9 amended: a day element without a snow node, one whose snow
node text has no integer, and a concrete weather response with snowfall 5/2
(truncated to 2). -/
theorem c9_snow_semantics_witness :
    (mkForecastDay 0 ⟨[], none, none⟩).snow_forecast_cm = some 0
    ∧ (mkForecastDay 0 ⟨[], some "xx", none⟩).snow_forecast_cm = firstNat "xx".data
    ∧ ∃ q, (⟨["d1"], [some 1], [some 0], [some (mkRat 5 2)], [some 71]⟩
          : DailyData).snowfall_sum.get? 0 = some (some q)
        ∧ (⟨"d1", some 1, some 0, 2, "snow"⟩ : WDay).snow_forecast_cm = pyTrunc q := by
  refine ⟨c9_snow_semantics.1 0 ⟨[], none, none⟩ rfl,
    c9_snow_semantics.2.1 0 ⟨[], some "xx", none⟩ "xx" rfl,
    c9_snow_semantics.2.2.2 ⟨["d1"], [some 1], [some 0], [some (mkRat 5 2)], [some 71]⟩ 0
      ⟨"d1", some 1, some 0, 2, "snow"⟩ (by rfl)⟩

end SkiMeister
